import Mathlib

/-!
# Verification of the `Item` entity of the spin-wheel widget

Shallow embedding of `src/item.js` (the `Item` class of a spinner-wheel
widget).  JavaScript runtime values are modelled by the inductive `JSValue`
(numbers as rationals), the mutable fields of an `Item` by the record
`ItemState`, and each property setter of the class by a state-transforming
function.  The owning Wheel's `refresh()` signal is modelled by a counter of
received signals; the asynchronous image load is modelled by explicit request
generations together with a `completeLoad` event.

`src/util.js`, `src/constants.js` and `src/wheel.js` are not part of the
repository snapshot, so `util.isObject`, `util.loadImage`,
`util.getRandomFloat`, `Defaults.item` and the Wheel's geometry interface are
modelled from the specification; each such definition carries a doc comment
saying so.
-/

namespace SpinWheel

/-- A JavaScript runtime value, as far as the `Item` class inspects one:
`typeof v === 'string'`, `typeof v === 'number'`, strict comparison with
`undefined` and `null`, and object-ness.  Numbers are modelled as rationals
(exact arithmetic standing in for IEEE doubles); objects are opaque
identities. -/
inductive JSValue where
  | undef : JSValue
  | null : JSValue
  | boolean : Bool → JSValue
  | num : ℚ → JSValue
  | str : String → JSValue
  | obj : Nat → JSValue
deriving DecidableEq, Repr

/-- `typeof val === 'string'`. -/
def isString : JSValue → Bool
  | .str _ => true
  | _ => false

/-- `typeof val === 'number'`. -/
def isNumber : JSValue → Bool
  | .num _ => true
  | _ => false

/-- Modelled from the spec: `util.isObject` (src/util.js is not in the
repository snapshot).  The constructor uses it to reject an absent or
malformed owning-Wheel reference and a non-object, non-null property bag, so
it tests for a non-null object value. -/
def isObject : JSValue → Bool
  | .obj _ => true
  | _ => false

/-- The property bag `ItemProps` of `src/item.js`: the ten recognized keys,
each holding an arbitrary JavaScript value; a key absent from the bag reads
as `undefined`. -/
structure ItemProps where
  backgroundColor : JSValue := .undef
  image : JSValue := .undef
  imageOpacity : JSValue := .undef
  imageRadius : JSValue := .undef
  imageRotation : JSValue := .undef
  imageScale : JSValue := .undef
  label : JSValue := .undef
  labelColor : JSValue := .undef
  value : JSValue := .undef
  weight : JSValue := .undef
deriving DecidableEq, Repr

namespace Defaults

/-- Modelled from the spec: `Defaults.item` (src/constants.js is not in the
repository snapshot).  The spec fixes the defaults only qualitatively: the
color fields and the image URL default to the unset marker `null`, `label`
defaults to the empty string, `value` defaults to the unset sentinel
`undefined`; the numeric defaults are unspecified, and the concrete rationals
chosen below are immaterial to every theorem (the theorems compare fields
against `Defaults.item` symbolically). -/
def item : ItemProps where
  backgroundColor := .null
  image := .null
  imageOpacity := .num 1
  imageRadius := .num (1/2)
  imageRotation := .num 0
  imageScale := .num 1
  label := .str ""
  labelColor := .null
  value := .undef
  weight := .num 1

end Defaults

/-- The image resource handle returned by `util.loadImage`: the request
generation that created it, the URL being fetched, and whether the
asynchronous load has completed.  In the browser this is an
`HTMLImageElement` whose pixel data arrives later; completion mutates the
handle in place. -/
structure ImgResource where
  reqId : Nat
  url : String
  complete : Bool
deriving DecidableEq, Repr

/-- Modelled from the spec: `util.loadImage(url, onLoad)` (src/util.js is not
in the repository snapshot).  It synchronously returns a fresh resource
handle for the URL and begins an asynchronous load; the loaded resource is
absent (`complete = false`) until the load finishes, at which point the
`onLoad` callback fires (the `Item` passes `e => this._wheel.refresh()`).
The fresh handle is identified by the next request generation. -/
def loadImage (reqId : Nat) (url : String) : ImgResource :=
  ⟨reqId, url, false⟩

/-- The mutable state of one `Item`: the ten private property fields
(`_backgroundColor` … `_weight`), the image resource reference `_imageObj`,
the generation counter identifying image-load requests, and a count of
`refresh()` signals the owning Wheel has received from this Item. -/
structure ItemState where
  backgroundColor : JSValue
  image : JSValue
  imageOpacity : JSValue
  imageRadius : JSValue
  imageRotation : JSValue
  imageScale : JSValue
  label : JSValue
  labelColor : JSValue
  value : JSValue
  weight : JSValue
  imageObj : Option ImgResource
  nextReqId : Nat
  refreshCount : Nat
deriving DecidableEq, Repr

namespace Item

/-- `this._wheel.refresh()`: the synchronous re-render signal pushed to the
owning Wheel, modelled as incrementing the count of signals received. -/
def refresh (st : ItemState) : ItemState :=
  { st with refreshCount := st.refreshCount + 1 }

/-- `set backgroundColor(val)` (src/item.js lines 159-166). -/
def set_backgroundColor (st : ItemState) (val : JSValue) : ItemState :=
  let st :=
    if isString val then { st with backgroundColor := val }
    else { st with backgroundColor := Defaults.item.backgroundColor }
  refresh st

/-- `set image(val)` (src/item.js lines 176-185): a string stores the URL and
synchronously assigns `_imageObj` the fresh handle returned by
`util.loadImage`; any other value resets the URL to the default and clears
`_imageObj` to `null`. -/
def set_image (st : ItemState) (val : JSValue) : ItemState :=
  let st :=
    match val with
    | .str s =>
        { st with image := .str s,
                  imageObj := some (loadImage st.nextReqId s),
                  nextReqId := st.nextReqId + 1 }
    | _ => { st with image := Defaults.item.image, imageObj := none }
  refresh st

/-- `set imageOpacity(val)` (src/item.js lines 198-205). -/
def set_imageOpacity (st : ItemState) (val : JSValue) : ItemState :=
  let st :=
    if isNumber val then { st with imageOpacity := val }
    else { st with imageOpacity := Defaults.item.imageOpacity }
  refresh st

/-- `set imageRadius(val)` (src/item.js lines 213-220). -/
def set_imageRadius (st : ItemState) (val : JSValue) : ItemState :=
  let st :=
    if isNumber val then { st with imageRadius := val }
    else { st with imageRadius := Defaults.item.imageRadius }
  refresh st

/-- `set imageRotation(val)` (src/item.js lines 228-235). -/
def set_imageRotation (st : ItemState) (val : JSValue) : ItemState :=
  let st :=
    if isNumber val then { st with imageRotation := val }
    else { st with imageRotation := Defaults.item.imageRotation }
  refresh st

/-- `set imageScale(val)` (src/item.js lines 243-250). -/
def set_imageScale (st : ItemState) (val : JSValue) : ItemState :=
  let st :=
    if isNumber val then { st with imageScale := val }
    else { st with imageScale := Defaults.item.imageScale }
  refresh st

/-- `set label(val)` (src/item.js lines 258-265). -/
def set_label (st : ItemState) (val : JSValue) : ItemState :=
  let st :=
    if isString val then { st with label := val }
    else { st with label := Defaults.item.label }
  refresh st

/-- `set labelColor(val)` (src/item.js lines 275-282). -/
def set_labelColor (st : ItemState) (val : JSValue) : ItemState :=
  let st :=
    if isString val then { st with labelColor := val }
    else { st with labelColor := Defaults.item.labelColor }
  refresh st

/-- `set value(val)` (src/item.js lines 291-297): any value strictly
different from `undefined` is stored as-is; `undefined` resets to the
default.  No `refresh()` call. -/
def set_value (st : ItemState) (val : JSValue) : ItemState :=
  if val ≠ JSValue.undef then { st with value := val }
  else { st with value := Defaults.item.value }

/-- `set weight(val)` (src/item.js lines 307-313).  No `refresh()` call. -/
def set_weight (st : ItemState) (val : JSValue) : ItemState :=
  if isNumber val then { st with weight := val }
  else { st with weight := Defaults.item.weight }

/-- The completion event of the asynchronous load of request `reqId`: the
handle created by that request becomes `complete` (an in-place mutation of
that object, visible through `_imageObj` only if `_imageObj` still references
that request — a later assignment replaces the referenced handle), and the
`onLoad` callback `e => this._wheel.refresh()` fires.  No completion handler
ever assigns `_imageObj`; the setter is its only writer. -/
def completeLoad (st : ItemState) (reqId : Nat) : ItemState :=
  let st :=
    match st.imageObj with
    | some r =>
        if r.reqId = reqId then { st with imageObj := some { r with complete := true } }
        else st
    | none => st
  refresh st

/-- Whether `_imageObj` currently holds a completely loaded resource (rather
than `null` or a still-pending handle). -/
def imageObjLoaded (st : ItemState) : Bool :=
  match st.imageObj with
  | some r => r.complete
  | none => false

/-- `init(props)` (src/item.js lines 137-149): assigns every recognized key
of the bag through the corresponding public setter, in source order. -/
def init (st : ItemState) (props : ItemProps) : ItemState :=
  let st := set_backgroundColor st props.backgroundColor
  let st := set_image st props.image
  let st := set_imageOpacity st props.imageOpacity
  let st := set_imageRadius st props.imageRadius
  let st := set_imageRotation st props.imageRotation
  let st := set_imageScale st props.imageScale
  let st := set_label st props.label
  let st := set_labelColor st props.labelColor
  let st := set_value st props.value
  set_weight st props.weight

/-- The `props` argument position of the constructor.  `missing` is an
absent (or explicitly `undefined`) argument, to which the default parameter
`props = {}` applies; an object argument is a `bag`; the remaining
constructors are the non-object, non-null primitives. -/
inductive PropsArg where
  | missing : PropsArg
  | null : PropsArg
  | boolean : Bool → PropsArg
  | num : ℚ → PropsArg
  | str : String → PropsArg
  | bag : ItemProps → PropsArg
deriving DecidableEq, Repr

/-- `util.isObject(props)` on the props argument position. -/
def PropsArg.isObjectArg : PropsArg → Bool
  | .bag _ => true
  | _ => false

/-- JavaScript default-parameter application: `props = {}` replaces an
absent or `undefined` argument by the empty bag. -/
def PropsArg.applyDefault : PropsArg → PropsArg
  | .missing => .bag {}
  | p => p

/-- The state of the fields after the `for (const i of Object.keys(Defaults.item))`
loop (src/item.js lines 44-46), which copies every default into the
corresponding private field. -/
def assignDefaults (st : ItemState) : ItemState :=
  { st with
      backgroundColor := Defaults.item.backgroundColor
      image := Defaults.item.image
      imageOpacity := Defaults.item.imageOpacity
      imageRadius := Defaults.item.imageRadius
      imageRotation := Defaults.item.imageRotation
      imageScale := Defaults.item.imageScale
      label := Defaults.item.label
      labelColor := Defaults.item.labelColor
      value := Defaults.item.value
      weight := Defaults.item.weight }

/-- The typed re-initialization block of the constructor (src/item.js lines
57-123): `_imageObj = null` and each private property field re-assigned a
type-annotation placeholder, overwriting the defaults-loop values. -/
def typeInit (st : ItemState) : ItemState :=
  { st with
      imageObj := none
      backgroundColor := .null
      image := .null
      imageOpacity := .num 0
      imageRadius := .num 0
      imageRotation := .num 0
      imageScale := .num 0
      label := .str ""
      labelColor := .null
      value := .undef
      weight := .num 0 }

/-- A fresh `Item` allocation before the constructor body runs: no load
requests issued yet, no refresh signals sent; field values are irrelevant
because the constructor overwrites all of them. -/
def emptyState : ItemState where
  backgroundColor := .undef
  image := .undef
  imageOpacity := .undef
  imageRadius := .undef
  imageRotation := .undef
  imageScale := .undef
  label := .undef
  labelColor := .undef
  value := .undef
  weight := .undef
  imageObj := none
  nextReqId := 0
  refreshCount := 0

/-- The errors the `Item` class throws.  `invalidWheel` is
`'wheel must be an instance of Wheel'`, `invalidProps` is
`'props must be an Object or null'` (the spec's `InvalidArgument` taxon);
`notFound` is `'Item not found in parent Wheel'` (the spec's `NotFound`);
`typeError` is the implicit TypeError of reading `.start` off an undefined
angle-table entry. -/
inductive ItemError where
  | invalidWheel : ItemError
  | invalidProps : ItemError
  | notFound : ItemError
  | typeError : ItemError
deriving DecidableEq, Repr

/-- `constructor(wheel, props = {})` (src/item.js lines 30-131): validates
the owning-Wheel reference and the property bag, assigns the defaults then
the typed placeholders to the private fields, and runs `init` with the bag
if it is truthy (an object) or with `Defaults.item` if it is `null`. -/
def construct (wheel : JSValue) (propsArg : PropsArg) : Except ItemError ItemState :=
  let props := propsArg.applyDefault
  if ¬ isObject wheel then .error .invalidWheel
  else if ¬ props.isObjectArg ∧ props ≠ PropsArg.null then .error .invalidProps
  else
    let st := typeInit (assignDefaults emptyState)
    match props with
    | .bag p => .ok (init st p)
    | _ => .ok (init st Defaults.item)

end Item

/-- A derived angle pair `{start, end}` in degrees, one entry of the owning
Wheel's angle table. -/
structure Angle where
  start : ℚ
  «end» : ℚ
deriving DecidableEq, Repr

/-- Modelled from the spec: the owning Wheel's interface (src/wheel.js is not
in the repository snapshot).  The Wheel supplies `items`, an ordered sequence
of sibling Items compared by identity (modelled as object identities), and
`getItemAngles()`, an ordered sequence of `{start, end}` degree pairs, one
per current item. -/
structure WheelGeom where
  items : List Nat
  itemAngles : List Angle
deriving DecidableEq, Repr

namespace Item

/-- `getIndex()` (src/item.js lines 319-323):
`this._wheel.items.findIndex(i => i === this)`, throwing when the scan
returns `-1`.  `self` is this Item's identity. -/
def getIndex (w : WheelGeom) (self : Nat) : Except ItemError Nat :=
  match w.items.findIdx? (fun i => i == self) with
  | some index => .ok index
  | none => .error .notFound

/-- The angle-table entry `this._wheel.getItemAngles()[this.getIndex()]`,
shared by the four angle queries; reading a bound off a missing entry is the
implicit TypeError. -/
def getItemAngle (w : WheelGeom) (self : Nat) : Except ItemError Angle := do
  let index ← getIndex w self
  match w.itemAngles.get? index with
  | some angle => .ok angle
  | none => .error .typeError

/-- `getCenterAngle()` (src/item.js lines 329-332):
`angle.start + ((angle.end - angle.start) / 2)`. -/
def getCenterAngle (w : WheelGeom) (self : Nat) : Except ItemError ℚ := do
  let angle ← getItemAngle w self
  .ok (angle.start + ((angle.«end» - angle.start) / 2))

/-- `getStartAngle()` (src/item.js lines 338-340). -/
def getStartAngle (w : WheelGeom) (self : Nat) : Except ItemError ℚ := do
  let angle ← getItemAngle w self
  .ok angle.start

/-- `getEndAngle()` (src/item.js lines 346-348). -/
def getEndAngle (w : WheelGeom) (self : Nat) : Except ItemError ℚ := do
  let angle ← getItemAngle w self
  .ok angle.«end»

end Item

/-- Modelled from the spec: `util.getRandomFloat(min, max)` (src/util.js is
not in the repository snapshot).  The spec requires a uniformly distributed
value in `[min, max]`; it is modelled as the affine image `min + r * (max - min)`
of a draw `r` uniform on the unit interval (the pushforward of the uniform
unit distribution under this monotone affine map is the uniform distribution
on `[min, max]`). -/
def getRandomFloat (min max r : ℚ) : ℚ :=
  min + r * (max - min)

namespace Item

/-- `getRandomAngle()` (src/item.js lines 354-356):
`util.getRandomFloat(this.getStartAngle(), this.getEndAngle())`, with the
unit draw `r` made explicit. -/
def getRandomAngle (w : WheelGeom) (self : Nat) (r : ℚ) : Except ItemError ℚ := do
  let s ← getStartAngle w self
  let e ← getEndAngle w self
  .ok (getRandomFloat s e r)

end Item

/-- The nine mutable fields of an `Item` other than `value` (the ones the
validate-or-default policy applies to). -/
inductive ItemField where
  | backgroundColor : ItemField
  | image : ItemField
  | imageOpacity : ItemField
  | imageRadius : ItemField
  | imageRotation : ItemField
  | imageScale : ItemField
  | label : ItemField
  | labelColor : ItemField
  | weight : ItemField
deriving DecidableEq, Repr

namespace ItemField

/-- Which fields expect a string candidate (`backgroundColor`, `image`,
`label`, `labelColor`); the rest expect a number. -/
def expectsString : ItemField → Bool
  | .backgroundColor => true
  | .image => true
  | .label => true
  | .labelColor => true
  | _ => false

/-- The field's type test, exactly the `typeof` guard of its setter. -/
def typeMatches (f : ItemField) (v : JSValue) : Bool :=
  if f.expectsString then isString v else isNumber v

/-- Dispatch to the field's setter. -/
def setField (f : ItemField) (st : ItemState) (v : JSValue) : ItemState :=
  match f with
  | .backgroundColor => Item.set_backgroundColor st v
  | .image => Item.set_image st v
  | .imageOpacity => Item.set_imageOpacity st v
  | .imageRadius => Item.set_imageRadius st v
  | .imageRotation => Item.set_imageRotation st v
  | .imageScale => Item.set_imageScale st v
  | .label => Item.set_label st v
  | .labelColor => Item.set_labelColor st v
  | .weight => Item.set_weight st v

/-- Read the field's stored value out of the state. -/
def readField (f : ItemField) (st : ItemState) : JSValue :=
  match f with
  | .backgroundColor => st.backgroundColor
  | .image => st.image
  | .imageOpacity => st.imageOpacity
  | .imageRadius => st.imageRadius
  | .imageRotation => st.imageRotation
  | .imageScale => st.imageScale
  | .label => st.label
  | .labelColor => st.labelColor
  | .weight => st.weight

/-- The field's entry in the process-wide defaults configuration. -/
def defaultOf (f : ItemField) : JSValue :=
  match f with
  | .backgroundColor => Defaults.item.backgroundColor
  | .image => Defaults.item.image
  | .imageOpacity => Defaults.item.imageOpacity
  | .imageRadius => Defaults.item.imageRadius
  | .imageRotation => Defaults.item.imageRotation
  | .imageScale => Defaults.item.imageScale
  | .label => Defaults.item.label
  | .labelColor => Defaults.item.labelColor
  | .weight => Defaults.item.weight

end ItemField

/-- C1: for every mutable field of an Item except `value` and every candidate
value, the setter stores the candidate when its `typeof` matches the field's
expected type (string for backgroundColor, image, label, labelColor; number
for imageOpacity, imageRadius, imageRotation, imageScale, weight) and
otherwise silently resets the field to its entry in the process-wide defaults
configuration; the setters are total functions of the state, so no input ever
raises an error. -/
theorem setters_validate_or_default (st : ItemState) (f : ItemField) (v : JSValue) :
    ItemField.readField f (ItemField.setField f st v) =
      if ItemField.typeMatches f v then v else ItemField.defaultOf f := by
  cases f <;> cases v <;>
    simp [ItemField.readField, ItemField.setField, ItemField.typeMatches,
      ItemField.expectsString, ItemField.defaultOf, Item.set_backgroundColor,
      Item.set_image, Item.set_imageOpacity, Item.set_imageRadius,
      Item.set_imageRotation, Item.set_imageScale, Item.set_label,
      Item.set_labelColor, Item.set_weight, Item.refresh, isString, isNumber]

/-- C7: every assignment to a field other than `value` and `weight` — whether
the candidate was accepted or replaced by the default — synchronously sends
the owning Wheel exactly one `refresh()` signal, while an assignment to
`value` sends none. -/
theorem setters_signal_refresh_value_does_not (st : ItemState) (v : JSValue) :
    (Item.set_backgroundColor st v).refreshCount = st.refreshCount + 1
    ∧ (Item.set_image st v).refreshCount = st.refreshCount + 1
    ∧ (Item.set_imageOpacity st v).refreshCount = st.refreshCount + 1
    ∧ (Item.set_imageRadius st v).refreshCount = st.refreshCount + 1
    ∧ (Item.set_imageRotation st v).refreshCount = st.refreshCount + 1
    ∧ (Item.set_imageScale st v).refreshCount = st.refreshCount + 1
    ∧ (Item.set_label st v).refreshCount = st.refreshCount + 1
    ∧ (Item.set_labelColor st v).refreshCount = st.refreshCount + 1
    ∧ (Item.set_value st v).refreshCount = st.refreshCount := by
  cases v <;>
    simp [Item.set_backgroundColor, Item.set_image, Item.set_imageOpacity,
      Item.set_imageRadius, Item.set_imageRotation, Item.set_imageScale,
      Item.set_label, Item.set_labelColor, Item.set_value, Item.refresh,
      isString, isNumber]

/-- C9: assigning any value other than the unset sentinel `undefined` to
`value` stores that exact value — including non-primitive payloads such as
object references — with no coercion or validation; assigning the sentinel
resets `value` to its configured default. -/
theorem value_setter_stores_exact_payload (st : ItemState) (v : JSValue)
    (hv : v ≠ JSValue.undef) :
    (Item.set_value st v).value = v
    ∧ (Item.set_value st JSValue.undef).value = Defaults.item.value := by
  constructor
  · simp [Item.set_value, hv]
  · simp [Item.set_value]

/-- Witness for `value_setter_stores_exact_payload` at the non-primitive
payload `obj 5`: the object reference is stored as-is. -/
theorem value_setter_stores_exact_payload_witness :
    (Item.set_value Item.emptyState (JSValue.obj 5)).value = JSValue.obj 5
    ∧ (Item.set_value Item.emptyState JSValue.undef).value = Defaults.item.value :=
  value_setter_stores_exact_payload Item.emptyState (JSValue.obj 5) (by decide)

/-- Whether the constructor throws (reaches an `Error`) on the given
arguments. -/
def Item.constructThrows (wheel : JSValue) (props : Item.PropsArg) : Bool :=
  match Item.construct wheel props with
  | .error _ => true
  | .ok _ => false

/-- C2: constructing an Item throws if and only if the owning-Wheel argument
is not an object or the (default-applied) props argument is a non-object,
non-null value; for a valid Wheel with an absent or null property bag the
construction succeeds with every field equal to the process-wide
item-defaults configuration, and for a valid bag the constructor runs `init`,
which applies each recognized key through the field's public setter — the
same validation/defaulting path as later mutation. -/
theorem construct_validates_and_defaults (wheel : JSValue) (props : Item.PropsArg) :
    (Item.constructThrows wheel props = true
      ↔ (isObject wheel = false
          ∨ (props.applyDefault.isObjectArg = false ∧ props ≠ Item.PropsArg.null)))
    ∧ (isObject wheel = true →
        props = Item.PropsArg.missing ∨ props = Item.PropsArg.null →
        ∃ st, Item.construct wheel props = .ok st
          ∧ (∀ f : ItemField, ItemField.readField f st = ItemField.defaultOf f)
          ∧ st.value = Defaults.item.value)
    ∧ (isObject wheel = true → ∀ p, Item.construct wheel (Item.PropsArg.bag p)
        = .ok (Item.init (Item.typeInit (Item.assignDefaults Item.emptyState)) p)) := by
  refine ⟨?_, ?_, ?_⟩
  · cases wheel <;> cases props <;>
      simp [Item.constructThrows, Item.construct, Item.PropsArg.applyDefault,
        Item.PropsArg.isObjectArg, isObject]
  · intro hw hp
    rcases hp with rfl | rfl <;>
      [refine ⟨Item.init (Item.typeInit (Item.assignDefaults Item.emptyState)) {}, ?_, ?_, ?_⟩;
       refine ⟨Item.init (Item.typeInit (Item.assignDefaults Item.emptyState)) Defaults.item,
         ?_, ?_, ?_⟩] <;>
      first
        | simp [Item.construct, Item.PropsArg.applyDefault, Item.PropsArg.isObjectArg, hw]
        | (intro f; cases f <;> rfl)
        | rfl
  · intro hw p
    simp [Item.construct, Item.PropsArg.applyDefault, Item.PropsArg.isObjectArg, hw]

/-- Witness for `construct_validates_and_defaults`: a numeric wheel argument
throws, and a valid wheel with a `null` bag yields an item whose every field
is the configured default. -/
theorem construct_validates_and_defaults_witness :
    Item.constructThrows (JSValue.num 7) Item.PropsArg.missing = true
    ∧ ∃ st, Item.construct (JSValue.obj 0) Item.PropsArg.null = .ok st
        ∧ (∀ f : ItemField, ItemField.readField f st = ItemField.defaultOf f)
        ∧ st.value = Defaults.item.value := by
  have h1 := construct_validates_and_defaults (JSValue.num 7) Item.PropsArg.missing
  have h2 := construct_validates_and_defaults (JSValue.obj 0) Item.PropsArg.null
  exact ⟨h1.1.mpr (Or.inl rfl), h2.2.1 rfl (Or.inr rfl)⟩

/-- C3: when this Item's identity is absent from the owning Wheel's `items`
sequence, `getIndex` and the four angle queries built on it all fail with the
`NotFound` error; when it is present, `getIndex` returns the zero-based
position of the first identity match in the sequence. -/
theorem index_queries_notFound_iff_absent (w : WheelGeom) (self : Nat) :
    (self ∉ w.items →
      Item.getIndex w self = .error .notFound
      ∧ Item.getStartAngle w self = .error .notFound
      ∧ Item.getEndAngle w self = .error .notFound
      ∧ Item.getCenterAngle w self = .error .notFound
      ∧ ∀ r, Item.getRandomAngle w self r = .error .notFound)
    ∧ (self ∈ w.items →
      ∃ i, Item.getIndex w self = .ok i
        ∧ w.items[i]? = some self
        ∧ ∀ j, j < i → w.items[j]? ≠ some self) := by
  constructor
  · intro habs
    have hnone : w.items.findIdx? (fun i => i == self) = none := by
      rw [List.findIdx?_eq_none_iff]
      intro x hx
      simp only [beq_eq_false_iff_ne]
      exact fun hxs => habs (hxs ▸ hx)
    have hidx : Item.getIndex w self = .error .notFound := by
      simp [Item.getIndex, hnone]
    refine ⟨hidx, ?_, ?_, ?_, fun r => ?_⟩ <;>
      · simp only [Item.getStartAngle, Item.getEndAngle, Item.getCenterAngle,
          Item.getRandomAngle, Item.getItemAngle, hidx]
        rfl
  · intro hmem
    have hex : ∃ x, x ∈ w.items ∧ (x == self) = true := ⟨self, hmem, by simp⟩
    have hsome := List.findIdx?_eq_some_of_exists hex
    set i := w.items.findIdx (fun i => i == self) with hi
    rw [List.findIdx?_eq_some_iff_getElem] at hsome
    obtain ⟨hlt, hp, hmin⟩ := hsome
    refine ⟨i, ?_, ?_, ?_⟩
    · simp [Item.getIndex, List.findIdx?_eq_some_of_exists hex, hi]
    · rw [List.getElem?_eq_getElem hlt]
      simpa using hp
    · intro j hj hjeq
      have hjlt : j < w.items.length := Nat.lt_trans hj hlt
      rw [List.getElem?_eq_getElem hjlt] at hjeq
      have : w.items.get ⟨j, hjlt⟩ = self := by
        simpa using hjeq
      exact hmin j hj (by simpa using this)

/-- Witness for `index_queries_notFound_iff_absent`: in a wheel holding items
`4` and `7`, the absent identity `9` gets `NotFound` from `getIndex`, and the
present identity `7` is found at position `1`. -/
theorem index_queries_notFound_iff_absent_witness :
    Item.getIndex ⟨[4, 7], []⟩ 9 = .error .notFound
    ∧ ∃ i, Item.getIndex ⟨[4, 7], []⟩ 7 = .ok i
        ∧ ([4, 7] : List Nat)[i]? = some 7
        ∧ ∀ j, j < i → ([4, 7] : List Nat)[j]? ≠ some 7 := by
  have h1 := index_queries_notFound_iff_absent ⟨[4, 7], []⟩ 9
  have h2 := index_queries_notFound_iff_absent ⟨[4, 7], []⟩ 7
  exact ⟨(h1.1 (by decide)).1, h2.2 (by decide)⟩

/-- C4: setting `image` to a string synchronously stores that URL, and the
loaded-resource reference `imageObj` holds no completed resource until the
load of that very request completes (completions of other requests leave it
pending); setting `image` to a non-string value resets the URL to the
configured default and clears `imageObj` to `null`. -/
theorem image_setter_url_sync_resource_async (st : ItemState) (s : String)
    (v : JSValue) (hv : isString v = false) :
    (Item.set_image st (.str s)).image = .str s
    ∧ Item.imageObjLoaded (Item.set_image st (.str s)) = false
    ∧ (∀ reqId, reqId ≠ st.nextReqId →
        Item.imageObjLoaded (Item.completeLoad (Item.set_image st (.str s)) reqId) = false)
    ∧ Item.imageObjLoaded (Item.completeLoad (Item.set_image st (.str s)) st.nextReqId) = true
    ∧ (Item.set_image st v).image = Defaults.item.image
    ∧ (Item.set_image st v).imageObj = none := by
  refine ⟨rfl, rfl, ?_, ?_, ?_, ?_⟩
  · intro reqId h
    simp [Item.set_image, Item.completeLoad, Item.refresh, Item.imageObjLoaded,
      loadImage, Ne.symm h]
  · simp [Item.set_image, Item.completeLoad, Item.refresh, Item.imageObjLoaded, loadImage]
  · cases v <;> simp [isString] at hv ⊢ <;> simp [Item.set_image, Item.refresh]
  · cases v <;> simp [isString] at hv ⊢ <;> simp [Item.set_image, Item.refresh]

/-- Witness for `image_setter_url_sync_resource_async` on a fresh item,
URL `"a.png"`, a stale completion of request `1`, and the numeric non-string
candidate `3`. -/
theorem image_setter_url_sync_resource_async_witness :
    (Item.set_image Item.emptyState (.str "a.png")).image = .str "a.png"
    ∧ Item.imageObjLoaded (Item.set_image Item.emptyState (.str "a.png")) = false
    ∧ Item.imageObjLoaded
        (Item.completeLoad (Item.set_image Item.emptyState (.str "a.png")) 1) = false
    ∧ Item.imageObjLoaded
        (Item.completeLoad (Item.set_image Item.emptyState (.str "a.png"))
          Item.emptyState.nextReqId) = true
    ∧ (Item.set_image Item.emptyState (JSValue.num 3)).image = Defaults.item.image
    ∧ (Item.set_image Item.emptyState (JSValue.num 3)).imageObj = none := by
  have h := image_setter_url_sync_resource_async Item.emptyState "a.png" (JSValue.num 3) rfl
  exact ⟨h.1, h.2.1, h.2.2.1 1 (by decide), h.2.2.2.1, h.2.2.2.2.1, h.2.2.2.2.2⟩

/-- C5: after two successive `image` assignments, `imageObj` references the
second request's handle; the completion of the first (slower) request does
not change `imageObj` — the setter is the only writer of `_imageObj`, and the
stale completion targets a handle no longer referenced — and after the second
request's completion `imageObj` is exactly the second request's loaded
resource. -/
theorem stale_image_load_never_overwrites (st : ItemState) (s1 s2 : String) :
    (Item.set_image (Item.set_image st (.str s1)) (.str s2)).imageObj
        = some ⟨st.nextReqId + 1, s2, false⟩
    ∧ (Item.completeLoad (Item.set_image (Item.set_image st (.str s1)) (.str s2))
          st.nextReqId).imageObj
        = (Item.set_image (Item.set_image st (.str s1)) (.str s2)).imageObj
    ∧ (Item.completeLoad
          (Item.completeLoad (Item.set_image (Item.set_image st (.str s1)) (.str s2))
            st.nextReqId)
          (st.nextReqId + 1)).imageObj
        = some ⟨st.nextReqId + 1, s2, true⟩ := by
  refine ⟨rfl, ?_, ?_⟩ <;>
    simp [Item.set_image, Item.completeLoad, Item.refresh, loadImage, Nat.succ_ne_self]

/-- C6: for an Item present in its Wheel's sequence, `getRandomAngle` is the
affine image of the unit draw over the item's span and therefore lies in the
closed interval from `getStartAngle` to `getEndAngle` for every unit draw. -/
theorem randomAngle_within_span (w : WheelGeom) (self : Nat) (r s e : ℚ)
    (hs : Item.getStartAngle w self = .ok s)
    (he : Item.getEndAngle w self = .ok e)
    (hse : s ≤ e) (hr0 : 0 ≤ r) (hr1 : r ≤ 1) :
    Item.getRandomAngle w self r = .ok (getRandomFloat s e r)
    ∧ s ≤ getRandomFloat s e r
    ∧ getRandomFloat s e r ≤ e := by
  refine ⟨?_, ?_, ?_⟩
  · simp only [Item.getRandomAngle, hs, he]
    rfl
  · have : 0 ≤ r * (e - s) := mul_nonneg hr0 (by linarith)
    simp only [getRandomFloat]
    linarith
  · have : r * (e - s) ≤ 1 * (e - s) := by
      apply mul_le_mul_of_nonneg_right hr1
      linarith
    simp only [getRandomFloat]
    linarith

/-- Witness for `randomAngle_within_span`: the single item of a wheel with
span `[90, 180]` and unit draw `1/2` yields `135`, inside `[90, 180]`. -/
theorem randomAngle_within_span_witness :
    Item.getRandomAngle ⟨[0], [⟨90, 180⟩]⟩ 0 (1/2) = .ok (getRandomFloat 90 180 (1/2))
    ∧ (90 : ℚ) ≤ getRandomFloat 90 180 (1/2)
    ∧ getRandomFloat 90 180 (1/2) ≤ 180 :=
  randomAngle_within_span ⟨[0], [⟨90, 180⟩]⟩ 0 (1/2) 90 180 rfl rfl
    (by norm_num) (by norm_num) (by norm_num)

/-- C8: whenever the item is present and the Wheel's angle table has an entry
at its index, `getCenterAngle` equals the midpoint `(start + end) / 2` of the
span reported by `getStartAngle` and `getEndAngle`. -/
theorem centerAngle_is_midpoint (w : WheelGeom) (self : Nat) (angle : Angle)
    (h : Item.getItemAngle w self = .ok angle) :
    Item.getCenterAngle w self = .ok ((angle.start + angle.«end») / 2)
    ∧ Item.getStartAngle w self = .ok angle.start
    ∧ Item.getEndAngle w self = .ok angle.«end» := by
  have key : angle.start + ((angle.«end» - angle.start) / 2)
      = (angle.start + angle.«end») / 2 := by ring
  refine ⟨?_, ?_, ?_⟩
  · simp only [Item.getCenterAngle, h]
    show Except.ok (angle.start + ((angle.«end» - angle.start) / 2)) = _
    rw [key]
  · simp only [Item.getStartAngle, h]
    rfl
  · simp only [Item.getEndAngle, h]
    rfl

/-- Witness for `centerAngle_is_midpoint`: a single-item wheel with span
`[0, 360)` has center angle `180`. -/
theorem centerAngle_is_midpoint_witness :
    Item.getCenterAngle ⟨[3], [⟨0, 360⟩]⟩ 3 = .ok 180 := by
  have h := centerAngle_is_midpoint ⟨[3], [⟨0, 360⟩]⟩ 3 ⟨0, 360⟩ rfl
  rw [h.1]
  norm_num

/-- C10: the unset sentinel for `value` is concretely `undefined`: assigning
`null` stores `null` as a genuine payload (no reset to the default, which is
`undefined`), and assigning `undefined` resets `value` to the configured
default. -/
theorem value_unset_sentinel_is_undefined (st : ItemState) :
    (Item.set_value st JSValue.null).value = JSValue.null
    ∧ (Item.set_value st JSValue.undef).value = Defaults.item.value
    ∧ Defaults.item.value = JSValue.undef := by
  refine ⟨?_, ?_, rfl⟩ <;> simp [Item.set_value, Defaults.item]

end SpinWheel
